import Mathlib

/-!
# Verification of the farmdb authentication core

Shallow embedding of the authentication subsystem of the repository
(`src/core/auth/service.py` and `src/core/auth/router.py`) and proofs of the
specification's claims about it.

Modelling conventions:

* The embedded relational store (DuckDB, reached through `core.storage.database.db`)
  is modelled as in-memory lists of rows, one list per table; `fetchone` is
  first-match (`List.find?`), `INSERT` appends, `UPDATE` maps over the list and
  `DELETE` filters it.  Row order is insertion order.
* `uuid.uuid4()`, `secrets.token_urlsafe` and the webauthn library's random
  challenges are modelled by a freshness counter threaded through the state:
  each draw returns the current counter value and bumps it.
* Argon2 (`argon2.PasswordHasher`) is modelled as an ideal memory-hard hash:
  the hash records the cost-parameter set and the password, `verify` raises a
  mismatch signal exactly on inequality, `check_needs_rehash` compares the
  recorded parameter set with the hasher's current one.
* JWTs (`jwt.encode` / `jwt.decode` with a symmetric key) are modelled as the
  claims record paired with the signing key; decoding with the right key at a
  time before `exp` succeeds, anything else raises `PyJWTError` (here: `none`).
  All tokens the service ever issues carry `sub` and `exp`, so those claims are
  plain fields.
* `hashlib.sha256` over the encoded refresh token is modelled as injective:
  the stored `token_hash` is the token value itself.
* Python exception classes are explicit: the service raises `ValueError` for
  its own failure signals, and the py_webauthn library's
  `verify_registration_response` / `verify_authentication_response` raise
  `InvalidRegistrationResponse` / `InvalidAuthenticationResponse`, which
  subclass `Exception`, not `ValueError`.
-/

/-- Relevant fields of `config.settings.Settings` (defaults from
`src/config/settings.py`). -/
structure Settings where
  jwt_secret_key : String
  jwt_access_token_expire_minutes : Nat
  jwt_refresh_token_expire_days : Nat
  webauthn_rp_id : String
  webauthn_rp_name : String
  webauthn_origin : String
deriving DecidableEq

/-- The process-wide settings object. The secret key is random per process
(`secrets.token_urlsafe(32)`); it is one fixed opaque value here. -/
def settings : Settings :=
  { jwt_secret_key := "process-secret-key"
    jwt_access_token_expire_minutes := 15
    jwt_refresh_token_expire_days := 30
    webauthn_rp_id := "localhost"
    webauthn_rp_name := "FarmDB"
    webauthn_origin := "http://localhost:5700" }

/-- JWT claims built by `AuthService.create_tokens`: `sub`, optional `email`,
`type`, `exp`, `iat`, optional `jti`. Times are seconds as `Nat`. -/
structure JwtPayload where
  sub : Nat
  email : Option String
  typ : String
  exp : Nat
  iat : Nat
  jti : Option Nat
deriving DecidableEq

/-- An encoded signed token: the claims plus the symmetric signing key
(ideal signature model). -/
structure Jwt where
  payload : JwtPayload
  key : String
deriving DecidableEq

/-- `jwt.encode(payload, key, algorithm)`. -/
def jwtEncode (p : JwtPayload) (k : String) : Jwt := ⟨p, k⟩

/-- `jwt.decode(token, key, algorithms=[...])` at time `now`: succeeds when the
signature matches and the token is unexpired, otherwise raises `PyJWTError`
(modelled as `none`). -/
def jwtDecode (t : Jwt) (k : String) (now : Nat) : Option JwtPayload :=
  if t.key = k ∧ now < t.payload.exp then some t.payload else none

/-- Current cost-parameter set of the process's `PasswordHasher()`. -/
def argonParams : Nat := 0

/-- An argon2 hash string: self-describing (records its parameter set) and
collision-free on the hashed password (ideal hash). -/
structure PHash where
  params : Nat
  pw : String
deriving DecidableEq

/-- `PasswordHasher.hash(password)`. -/
def argonHash (password : String) : PHash := ⟨argonParams, password⟩

/-- The `VerifyMismatchError` signal of the argon2 library. -/
inductive Argon2Error
  | verifyMismatch
deriving DecidableEq

/-- `PasswordHasher.verify(hash, password)`: returns on match, raises
`VerifyMismatchError` on mismatch. -/
def argonVerify (h : PHash) (password : String) : Except Argon2Error Unit :=
  if h.pw = password then .ok () else .error .verifyMismatch

/-- `PasswordHasher.check_needs_rehash(hash)`. -/
def argonNeedsRehash (h : PHash) : Bool :=
  decide (h.params ≠ argonParams)

/-- Exception classes that cross the service/facade boundary. `valueError` is
Python's built-in `ValueError`; the other two are py_webauthn's
`InvalidRegistrationResponse` / `InvalidAuthenticationResponse`, which derive
from `Exception` and are not `ValueError`s; `attributeError` is Python's
`AttributeError`. -/
inductive PyExc
  | valueError (msg : String)
  | invalidRegistrationResponse (msg : String)
  | invalidAuthenticationResponse (msg : String)
  | attributeError (msg : String)
deriving DecidableEq

/-- Row of `v1.users`. -/
structure User where
  id : Nat
  email : String
  displayName : Option String
  isActive : Bool
  isVerified : Bool
  createdAt : Nat
  updatedAt : Nat
deriving DecidableEq

/-- Row of `v1.password_credentials`. -/
structure PasswordCred where
  id : Nat
  userId : Nat
  passwordHash : PHash
  createdAt : Nat
  updatedAt : Nat
deriving DecidableEq

/-- Row of `v1.passkey_credentials`. `transports` is stored as a JSON list in
the source; the JSON round trip is the identity, so the list is stored
directly. -/
structure PasskeyCred where
  id : Nat
  userId : Nat
  credentialId : Nat
  publicKey : Nat
  signCount : Nat
  deviceType : Option String
  backedUp : Bool
  transports : List String
  aaguid : Option String
  friendlyName : Option String
  createdAt : Nat
  lastUsedAt : Option Nat
deriving DecidableEq

/-- Row of `v1.refresh_tokens`. `token_hash` is the sha256 digest of the
encoded refresh token; the digest is injective, so the token value itself
stands for it. -/
structure RefreshRow where
  id : Nat
  userId : Nat
  tokenHash : Jwt
  expiresAt : Nat
  revoked : Bool
  createdAt : Nat
deriving DecidableEq

/-- Key of the in-memory challenge dict `AuthService._challenges`: either a
user id (registration ceremony) or a random urlsafe token (authentication
ceremony). The two string shapes never collide. -/
inductive ChalKey
  | user (id : Nat)
  | random (n : Nat)
deriving DecidableEq

/-- The whole mutable state behind one `AuthService`: the four tables of the
embedded store, the in-process challenge dict, and the freshness counter that
models random draws. -/
structure State where
  users : List User
  passwordCreds : List PasswordCred
  passkeyCreds : List PasskeyCred
  refreshTokens : List RefreshRow
  challenges : List (ChalKey × Nat)
  counter : Nat
deriving DecidableEq

/-- Lookup in the challenge dict. -/
def chalFind (m : List (ChalKey × Nat)) (k : ChalKey) : Option Nat :=
  (m.find? (fun p => decide (p.1 = k))).map (fun p => p.2)

/-- Remove a key from the challenge dict. -/
def chalErase (m : List (ChalKey × Nat)) (k : ChalKey) : List (ChalKey × Nat) :=
  m.filter (fun p => decide (p.1 ≠ k))

/-- `dict[key] = value` (overwrite). -/
def chalInsert (m : List (ChalKey × Nat)) (k : ChalKey) (v : Nat) : List (ChalKey × Nat) :=
  (k, v) :: chalErase m k

/-- `dict.pop(key, None)`: the stored challenges are nonempty random byte
strings, so the Python falsiness test on the popped value coincides with
presence. When the key is absent the dict is unchanged. -/
def chalPop (m : List (ChalKey × Nat)) (k : ChalKey) : Option Nat × List (ChalKey × Nat) :=
  match chalFind m k with
  | none => (none, m)
  | some v => (some v, chalErase m k)

/-- Python's `str.lower()` over the code points (`String.toLower`, written
structurally so that concrete instances evaluate). -/
def strLower (s : String) : String := String.mk (s.data.map Char.toLower)

/-- `AuthService.get_user_by_id`. -/
def get_user_by_id (s : State) (userId : Nat) : Option User :=
  s.users.find? (fun u => decide (u.id = userId))

/-- `AuthService.get_user_by_email`: the lookup lower-cases the email first. -/
def get_user_by_email (s : State) (email : String) : Option User :=
  s.users.find? (fun u => decide (u.email = strLower email))

/-- `SELECT id, revoked FROM v1.refresh_tokens WHERE token_hash = ?` with
`fetchone`. -/
def findRefreshRow (s : State) (tok : Jwt) : Option RefreshRow :=
  s.refreshTokens.find? (fun row => decide (row.tokenHash = tok))

/-- `AuthService.set_password`: hash, then upsert the single password
credential of the user. `now` is `datetime.now`. -/
def set_password (s : State) (userId : Nat) (password : String) (now : Nat) : State :=
  let password_hash := argonHash password
  let cred_id := s.counter
  let s1 : State := { s with counter := s.counter + 1 }
  match s1.passwordCreds.find? (fun c => decide (c.userId = userId)) with
  | some _ =>
      { s1 with passwordCreds :=
          s1.passwordCreds.map (fun c =>
            if c.userId = userId then
              { c with passwordHash := password_hash, updatedAt := now }
            else c) }
  | none =>
      { s1 with passwordCreds :=
          s1.passwordCreds ++
            [{ id := cred_id, userId := userId, passwordHash := password_hash,
               createdAt := now, updatedAt := now }] }

/-- `AuthService.verify_password`: fetch the stored hash, verify (mismatch is
caught and returns `false`), and rehash inline when the stored parameters are
outdated. -/
def verify_password (s : State) (userId : Nat) (password : String) (now : Nat) :
    Bool × State :=
  match s.passwordCreds.find? (fun c => decide (c.userId = userId)) with
  | none => (false, s)
  | some c =>
      match argonVerify c.passwordHash password with
      | .error _ => (false, s)
      | .ok _ =>
          let s1 := if argonNeedsRehash c.passwordHash then
              set_password s userId password now
            else s
          (true, s1)

/-- `AuthService.create_user`: insert the user row (email lower-cased,
active, unverified), set the password only when it is truthy (Python
`if password:` — the empty string is skipped), and re-fetch the user. -/
def create_user (s : State) (email : String) (password : Option String)
    (displayName : Option String) (now : Nat) : Option User × State :=
  let user_id := s.counter
  let s1 : State :=
    { s with
      users := s.users ++
        [{ id := user_id, email := strLower email, displayName := displayName,
           isActive := true, isVerified := false, createdAt := now, updatedAt := now }]
      counter := s.counter + 1 }
  let s2 :=
    match password with
    | some p => if p ≠ "" then set_password s1 user_id p now else s1
    | none => s1
  (get_user_by_id s2 user_id, s2)

/-- `AuthService.create_tokens`: build the access and refresh claims, sign
both, and persist a refresh-token row keyed by the digest of the encoded
refresh token. The refresh claims carry a fresh `jti`. -/
def create_tokens (s : State) (user : User) (now : Nat) :
    (Jwt × Jwt × Nat) × State :=
  let access_expires := now + settings.jwt_access_token_expire_minutes * 60
  let refresh_expires := now + settings.jwt_refresh_token_expire_days * 86400
  let access_token := jwtEncode
    { sub := user.id, email := some user.email, typ := "access",
      exp := access_expires, iat := now, jti := none } settings.jwt_secret_key
  let jti := s.counter
  let refresh_token := jwtEncode
    { sub := user.id, email := none, typ := "refresh",
      exp := refresh_expires, iat := now, jti := some jti } settings.jwt_secret_key
  let token_id := s.counter + 1
  let row : RefreshRow :=
    { id := token_id, userId := user.id, tokenHash := refresh_token,
      expiresAt := refresh_expires, revoked := false, createdAt := now }
  ((access_token, refresh_token, settings.jwt_access_token_expire_minutes * 60),
   { s with refreshTokens := s.refreshTokens ++ [row], counter := s.counter + 2 })

/-- `AuthService.verify_access_token`: decode against the signing key and
require claim type `"access"`; any `PyJWTError` yields `None`. The service
state is untouched — the body performs no storage access. -/
def verify_access_token (_s : State) (token : Jwt) (now : Nat) : Option JwtPayload :=
  match jwtDecode token settings.jwt_secret_key now with
  | none => none
  | some payload => if payload.typ = "access" then some payload else none

/-- `AuthService.refresh_tokens` (rotate): decode, check the claim type, look
up the stored row by digest, reject revoked rows, mark the row revoked, then
fetch the subject user and issue a fresh pair unless the user is missing or
inactive. -/
def refresh_tokens (s : State) (refresh_token : Jwt) (now : Nat) :
    Option (Jwt × Jwt × Nat) × State :=
  match jwtDecode refresh_token settings.jwt_secret_key now with
  | none => (none, s)
  | some payload =>
      if payload.typ ≠ "refresh" then (none, s)
      else
        match findRefreshRow s refresh_token with
        | none => (none, s)
        | some row =>
            if row.revoked then (none, s)
            else
              let s1 : State :=
                { s with refreshTokens :=
                    s.refreshTokens.map (fun rw =>
                      if rw.id = row.id then { rw with revoked := true } else rw) }
              match get_user_by_id s1 payload.sub with
              | none => (none, s1)
              | some user =>
                  if user.isActive = false then (none, s1)
                  else
                    let res := create_tokens s1 user now
                    (some res.1, res.2)

/-- `AuthService.revoke_refresh_token`: mark every matching non-revoked row
revoked; report whether any row was affected. -/
def revoke_refresh_token (s : State) (refresh_token : Jwt) : Bool × State :=
  let affected := s.refreshTokens.countP
    (fun row => decide (row.tokenHash = refresh_token ∧ row.revoked = false))
  let s1 : State :=
    { s with refreshTokens :=
        s.refreshTokens.map (fun row =>
          if row.tokenHash = refresh_token ∧ row.revoked = false then
            { row with revoked := true }
          else row) }
  (decide (0 < affected), s1)

/-- `AuthService.revoke_all_user_tokens`: bulk-revoke every non-revoked row of
one user; report the number of affected rows. -/
def revoke_all_user_tokens (s : State) (userId : Nat) : Nat × State :=
  let affected := s.refreshTokens.countP
    (fun row => decide (row.userId = userId ∧ row.revoked = false))
  let s1 : State :=
    { s with refreshTokens :=
        s.refreshTokens.map (fun row =>
          if row.userId = userId ∧ row.revoked = false then
            { row with revoked := true }
          else row) }
  (affected, s1)

/-- The client attestation response passed to passkey-registration verify. The
cryptographic content (embedded challenge, origin, relying-party id, the
authenticator data) is abstracted to the facts the library checks. -/
structure RegCredential where
  challenge : Nat
  origin : String
  rpId : String
  credentialId : Nat
  publicKey : Nat
  signCount : Nat
  backedUp : Bool
  deviceType : Option String
  transports : List String
  aaguid : Option String
  attestationValid : Bool
deriving DecidableEq

/-- The verified-registration record returned by the library. -/
structure RegVerification where
  credentialId : Nat
  publicKey : Nat
  signCount : Nat
  deviceType : Option String
  backedUp : Bool
  aaguid : Option String
deriving DecidableEq

/-- py_webauthn `verify_registration_response`: checks the response against the
expected challenge, relying-party id and origin, and the attestation
signature; on failure it raises `InvalidRegistrationResponse` (a subclass of
`Exception`, not of `ValueError`). -/
def verify_registration_response (credential : RegCredential)
    (expected_challenge : Nat) (expected_rp_id expected_origin : String) :
    Except PyExc RegVerification :=
  if credential.challenge = expected_challenge ∧ credential.rpId = expected_rp_id ∧
      credential.origin = expected_origin ∧ credential.attestationValid = true then
    .ok { credentialId := credential.credentialId, publicKey := credential.publicKey,
          signCount := credential.signCount, deviceType := credential.deviceType,
          backedUp := credential.backedUp, aaguid := credential.aaguid }
  else
    .error (.invalidRegistrationResponse "Registration verification failed")

/-- The client assertion response passed to passkey-authentication verify.
`signedWith` names the key pair the assertion signature verifies under (ideal
signature model); `newSignCount` is the authenticator's reported counter. -/
structure AuthCredential where
  rawId : Nat
  challenge : Nat
  origin : String
  rpId : String
  signedWith : Nat
  newSignCount : Nat
deriving DecidableEq

/-- The verified-authentication record returned by the library. -/
structure AuthVerification where
  newSignCount : Nat
deriving DecidableEq

/-- py_webauthn `verify_authentication_response`: checks challenge, relying
party, origin, the assertion signature against the stored public key, and
that the sign count advances (clone detection: a stale count is rejected
unless both counts are zero); on failure it raises
`InvalidAuthenticationResponse` (a subclass of `Exception`, not of
`ValueError`). -/
def verify_authentication_response (credential : AuthCredential)
    (expected_challenge : Nat) (expected_rp_id expected_origin : String)
    (credential_public_key : Nat) (credential_current_sign_count : Nat) :
    Except PyExc AuthVerification :=
  if credential.challenge = expected_challenge ∧ credential.rpId = expected_rp_id ∧
      credential.origin = expected_origin ∧
      credential.signedWith = credential_public_key ∧
      (credential_current_sign_count = 0 ∧ credential.newSignCount = 0 ∨
        credential_current_sign_count < credential.newSignCount) then
    .ok { newSignCount := credential.newSignCount }
  else
    .error (.invalidAuthenticationResponse "Authentication verification failed")

/-- Passkey public metadata returned by the service (`PasskeyInfo`). -/
structure PasskeyInfo where
  id : Nat
  friendlyName : Option String
  deviceType : Option String
  backedUp : Bool
  createdAt : Nat
  lastUsedAt : Option Nat
deriving DecidableEq

/-- The options dict built by `generate_passkey_registration_options`
(challenge, relying party, user handle, exclusion list, authenticator
selection, attestation preference). -/
structure RegistrationOptionsDict where
  challenge : Nat
  rpId : String
  rpName : String
  userId : Nat
  userName : String
  userDisplayName : String
  excludeCredentials : List Nat
  residentKey : String
  userVerification : String
  attestation : String
deriving DecidableEq

/-- `AuthService.generate_passkey_registration_options`: collect the user's
existing credential ids as the exclusion list, draw a fresh challenge, store
it under the user's id, and return the options dict. -/
def generate_passkey_registration_options (s : State) (user : User) :
    RegistrationOptionsDict × State :=
  let existing := s.passkeyCreds.filter (fun c => decide (c.userId = user.id))
  let exclude_credentials := existing.map (fun c => c.credentialId)
  let challenge := s.counter
  let s1 : State :=
    { s with challenges := chalInsert s.challenges (ChalKey.user user.id) challenge
             counter := s.counter + 1 }
  ({ challenge := challenge
     rpId := settings.webauthn_rp_id
     rpName := settings.webauthn_rp_name
     userId := user.id
     userName := user.email
     userDisplayName := user.displayName.getD user.email
     excludeCredentials := exclude_credentials
     residentKey := "preferred"
     userVerification := "preferred"
     attestation := "none" }, s1)

/-- `AuthService.verify_passkey_registration`: pop the challenge stored under
the user's id (raising `ValueError` when absent), let the library verify the
attestation (its own exception propagates), then persist the new passkey row
and return its public metadata. -/
def verify_passkey_registration (s : State) (user : User)
    (credential : RegCredential) (friendly_name : Option String) (now : Nat) :
    Except PyExc PasskeyInfo × State :=
  let popped := chalPop s.challenges (ChalKey.user user.id)
  let s1 : State := { s with challenges := popped.2 }
  match popped.1 with
  | none => (.error (.valueError "No registration challenge found"), s1)
  | some challenge =>
      match verify_registration_response credential challenge
          settings.webauthn_rp_id settings.webauthn_origin with
      | .error e => (.error e, s1)
      | .ok verification =>
          let cred_id := s1.counter
          let row : PasskeyCred :=
            { id := cred_id, userId := user.id,
              credentialId := verification.credentialId,
              publicKey := verification.publicKey,
              signCount := verification.signCount,
              deviceType := verification.deviceType,
              backedUp := verification.backedUp,
              transports := credential.transports,
              aaguid := verification.aaguid,
              friendlyName := friendly_name,
              createdAt := now, lastUsedAt := none }
          (.ok { id := cred_id, friendlyName := friendly_name,
                 deviceType := verification.deviceType,
                 backedUp := verification.backedUp,
                 createdAt := now, lastUsedAt := none },
           { s1 with passkeyCreds := s1.passkeyCreds ++ [row]
                     counter := s1.counter + 1 })

/-- The options dict built by `generate_passkey_authentication_options`. In
the source the `allowCredentials` key is omitted from the JSON dict when the
list is empty; the empty list stands for the omitted key. -/
structure AuthenticationOptionsDict where
  challenge : Nat
  rpId : String
  userVerification : String
  challengeKey : ChalKey
  allowCredentials : List (Nat × List String)
deriving DecidableEq

/-- `AuthService.generate_passkey_authentication_options`: when a truthy email
is supplied and resolves to a user, the allow-list is that user's credential
ids with their transports; otherwise it stays empty (discoverable-credential
flow). A fresh challenge is stored under a newly minted random key, which is
echoed back as `_challenge_key`. -/
def generate_passkey_authentication_options (s : State) (email : Option String) :
    AuthenticationOptionsDict × State :=
  let allow_credentials :=
    match email with
    | some e =>
        if e ≠ "" then
          match get_user_by_email s e with
          | some user =>
              (s.passkeyCreds.filter (fun c => decide (c.userId = user.id))).map
                (fun c => (c.credentialId, c.transports))
          | none => []
        else []
    | none => []
  let challenge := s.counter
  let challenge_key := ChalKey.random (s.counter + 1)
  let s1 : State :=
    { s with challenges := chalInsert s.challenges challenge_key challenge
             counter := s.counter + 2 }
  ({ challenge := challenge
     rpId := settings.webauthn_rp_id
     userVerification := "preferred"
     challengeKey := challenge_key
     allowCredentials := allow_credentials }, s1)

/-- `AuthService.verify_passkey_authentication`: pop the challenge for the
supplied key (`ValueError` when absent), look up the stored credential by raw
id (`ValueError` when unknown), let the library verify the assertion (its own
exception propagates), update the stored sign count and last-used time, and
resolve the owning user. -/
def verify_passkey_authentication (s : State) (credential : AuthCredential)
    (challenge_key : ChalKey) (now : Nat) : Except PyExc User × State :=
  let popped := chalPop s.challenges challenge_key
  let s1 : State := { s with challenges := popped.2 }
  match popped.1 with
  | none => (.error (.valueError "No authentication challenge found"), s1)
  | some challenge =>
      match s1.passkeyCreds.find? (fun c => decide (c.credentialId = credential.rawId)) with
      | none => (.error (.valueError "Credential not found"), s1)
      | some db_cred =>
          match verify_authentication_response credential challenge
              settings.webauthn_rp_id settings.webauthn_origin
              db_cred.publicKey db_cred.signCount with
          | .error e => (.error e, s1)
          | .ok verification =>
              let s2 : State :=
                { s1 with passkeyCreds :=
                    s1.passkeyCreds.map (fun c =>
                      if c.id = db_cred.id then
                        { c with signCount := verification.newSignCount,
                                 lastUsedAt := some now }
                      else c) }
              match get_user_by_id s2 db_cred.userId with
              | none => (.error (.valueError "User not found"), s2)
              | some user => (.ok user, s2)

/-- `AuthService.list_user_passkeys` (read-only). -/
def list_user_passkeys (s : State) (userId : Nat) : List PasskeyInfo :=
  (s.passkeyCreds.filter (fun c => decide (c.userId = userId))).map
    (fun c => { id := c.id, friendlyName := c.friendlyName,
                deviceType := c.deviceType, backedUp := c.backedUp,
                createdAt := c.createdAt, lastUsedAt := c.lastUsedAt })

/-- `AuthService.delete_passkey`: delete the row owned by the user; report
whether a row was affected. -/
def delete_passkey (s : State) (userId : Nat) (passkeyId : Nat) : Bool × State :=
  let affected := s.passkeyCreds.countP
    (fun c => decide (c.id = passkeyId ∧ c.userId = userId))
  let s1 : State :=
    { s with passkeyCreds :=
        s.passkeyCreds.filter (fun c => decide (¬ (c.id = passkeyId ∧ c.userId = userId))) }
  (decide (0 < affected), s1)

/-- Outcome of one HTTP handler: a successful response, an `HTTPException`
with its status code and detail, or an exception that escaped the handler
unhandled. -/
inductive HResult (α : Type)
  | ok (value : α)
  | httpError (status : Nat) (detail : String)
  | unhandled (e : PyExc)
deriving DecidableEq

/-- Whether a handler outcome is a success response. -/
def HResult.isOk {α : Type} : HResult α → Bool
  | .ok _ => true
  | _ => false

/-- The `TokenResponse` schema returned by the token-issuing endpoints. -/
structure TokenResponse where
  access_token : Jwt
  refresh_token : Jwt
  token_type : String
  expires_in : Nat
deriving DecidableEq

/-- `POST /v1/auth/register`: reject an already-registered email with 400,
otherwise create the user and issue a token pair. (A `None` returned by
`create_user` would crash on attribute access; it is re-fetching the row just
inserted.) -/
def register (s : State) (email password : String) (display_name : Option String)
    (now : Nat) : HResult TokenResponse × State :=
  match get_user_by_email s email with
  | some _ => (.httpError 400 "Email already registered", s)
  | none =>
      let created := create_user s email (some password) display_name now
      match created.1 with
      | none => (.unhandled (.attributeError "NoneType has no attribute id"), created.2)
      | some user =>
          let res := create_tokens created.2 user now
          (.ok { access_token := res.1.1, refresh_token := res.1.2.1,
                 token_type := "bearer", expires_in := res.1.2.2 }, res.2)

/-- `POST /v1/auth/login/password`: unknown email and wrong password both map
to 401 "Invalid email or password"; a disabled account maps to 401 "Account is
disabled"; otherwise issue a token pair. -/
def login_password (s : State) (email password : String) (now : Nat) :
    HResult TokenResponse × State :=
  match get_user_by_email s email with
  | none => (.httpError 401 "Invalid email or password", s)
  | some user =>
      if user.isActive = false then (.httpError 401 "Account is disabled", s)
      else
        let verified := verify_password s user.id password now
        if verified.1 = false then
          (.httpError 401 "Invalid email or password", verified.2)
        else
          let res := create_tokens verified.2 user now
          (.ok { access_token := res.1.1, refresh_token := res.1.2.1,
                 token_type := "bearer", expires_in := res.1.2.2 }, res.2)

/-- Request body of `POST /v1/auth/login/passkey/verify`: the credential dict
plus the `_challenge_key` entry extracted from it (`none` when absent or
falsy). -/
structure PasskeyAuthVerifyRequest where
  credential : AuthCredential
  challengeKey : Option ChalKey
deriving DecidableEq

/-- `POST /v1/auth/login/passkey/verify`: 400 when the challenge key is
missing; `ValueError` from the service is caught and mapped to 401; any other
exception (notably the library's `InvalidAuthenticationResponse`) escapes the
`except ValueError` clause unhandled; a disabled account maps to 401; success
issues a token pair. -/
def login_passkey_verify (s : State) (request : PasskeyAuthVerifyRequest)
    (now : Nat) : HResult TokenResponse × State :=
  match request.challengeKey with
  | none => (.httpError 400 "Missing challenge key", s)
  | some key =>
      let res := verify_passkey_authentication s request.credential key now
      match res.1 with
      | .error (.valueError msg) => (.httpError 401 msg, res.2)
      | .error e => (.unhandled e, res.2)
      | .ok user =>
          if user.isActive = false then (.httpError 401 "Account is disabled", res.2)
          else
            let tok := create_tokens res.2 user now
            (.ok { access_token := tok.1.1, refresh_token := tok.1.2.1,
                   token_type := "bearer", expires_in := tok.1.2.2 }, tok.2)

/-- `POST /v1/auth/passkeys/register/verify` (behind the bearer guard, which
has already resolved `current_user`): 404 when the user row is gone,
`ValueError` from the service mapped to 400, any other exception (notably the
library's `InvalidRegistrationResponse`) escapes unhandled. -/
def passkey_register_verify (s : State) (current_user_id : Nat)
    (credential : RegCredential) (friendly_name : Option String) (now : Nat) :
    HResult PasskeyInfo × State :=
  match get_user_by_id s current_user_id with
  | none => (.httpError 404 "User not found", s)
  | some user =>
      let res := verify_passkey_registration s user credential friendly_name now
      match res.1 with
      | .ok pk => (.ok pk, res.2)
      | .error (.valueError msg) => (.httpError 400 msg, res.2)
      | .error e => (.unhandled e, res.2)

/-- One invocation of a state-touching `AuthService` method, with its inputs
(including the wall-clock time and any client-supplied data). The HTTP
handlers only compose these methods, so any interleaving of requests is a
list of these operations. -/
inductive Op
  | createUserOp (email : String) (password : Option String)
      (displayName : Option String) (now : Nat)
  | setPasswordOp (userId : Nat) (password : String) (now : Nat)
  | verifyPasswordOp (userId : Nat) (password : String) (now : Nat)
  | createTokensOp (user : User) (now : Nat)
  | refreshTokensOp (token : Jwt) (now : Nat)
  | revokeRefreshTokenOp (token : Jwt)
  | revokeAllUserTokensOp (userId : Nat)
  | regOptionsOp (user : User)
  | regVerifyOp (user : User) (credential : RegCredential)
      (friendlyName : Option String) (now : Nat)
  | authOptionsOp (email : Option String)
  | authVerifyOp (credential : AuthCredential) (key : ChalKey) (now : Nat)
  | deletePasskeyOp (userId : Nat) (passkeyId : Nat)
deriving DecidableEq

/-- State effect of one service operation (results discarded). -/
def applyOp (s : State) : Op → State
  | .createUserOp e p d n => (create_user s e p d n).2
  | .setPasswordOp u p n => set_password s u p n
  | .verifyPasswordOp u p n => (verify_password s u p n).2
  | .createTokensOp u n => (create_tokens s u n).2
  | .refreshTokensOp t n => (refresh_tokens s t n).2
  | .revokeRefreshTokenOp t => (revoke_refresh_token s t).2
  | .revokeAllUserTokensOp u => (revoke_all_user_tokens s u).2
  | .regOptionsOp u => (generate_passkey_registration_options s u).2
  | .regVerifyOp u c f n => (verify_passkey_registration s u c f n).2
  | .authOptionsOp e => (generate_passkey_authentication_options s e).2
  | .authVerifyOp c k n => (verify_passkey_authentication s c k n).2
  | .deletePasskeyOp u p => (delete_passkey s u p).2

/-- State effect of a sequence of service operations. -/
def applyOps (s : State) (ops : List Op) : State :=
  ops.foldl applyOp s

theorem findP_append_none {α : Type} (p : α → Bool) (l1 l2 : List α)
    (h : l1.find? p = none) : (l1 ++ l2).find? p = l2.find? p := by
  induction l1 with
  | nil => simp
  | cons a t ih =>
      cases hp : p a with
      | true => simp [List.find?_cons_of_pos _ hp] at h
      | false =>
          have hp2 : ¬ p a = true := by simp [hp]
          rw [List.find?_cons_of_neg _ hp2] at h
          rw [List.cons_append, List.find?_cons_of_neg _ hp2]
          exact ih h

theorem findP_append_some {α : Type} (p : α → Bool) (l1 l2 : List α) (a : α)
    (h : l1.find? p = some a) : (l1 ++ l2).find? p = some a := by
  induction l1 with
  | nil => simp at h
  | cons b t ih =>
      cases hp : p b with
      | true =>
          rw [List.find?_cons_of_pos _ hp] at h
          rw [List.cons_append, List.find?_cons_of_pos _ hp]
          exact h
      | false =>
          have hp2 : ¬ p b = true := by simp [hp]
          rw [List.find?_cons_of_neg _ hp2] at h
          rw [List.cons_append, List.find?_cons_of_neg _ hp2]
          exact ih h

theorem findP_map {α : Type} (g : α → α) (p : α → Bool)
    (hp : ∀ x, p (g x) = p x) (l : List α) :
    (l.map g).find? p = (l.find? p).map g := by
  induction l with
  | nil => simp
  | cons a t ih =>
      cases hpa : p a with
      | true =>
          rw [List.map_cons, List.find?_cons_of_pos _ ((hp a).trans hpa),
            List.find?_cons_of_pos _ hpa]
          simp
      | false =>
          have h1 : ¬ p (g a) = true := by simp [hp a, hpa]
          have h2 : ¬ p a = true := by simp [hpa]
          rw [List.map_cons, List.find?_cons_of_neg _ h1, List.find?_cons_of_neg _ h2]
          exact ih

theorem findP_none_of_all {α : Type} (p : α → Bool) (l : List α)
    (h : ∀ x ∈ l, p x = false) : l.find? p = none := by
  induction l with
  | nil => simp
  | cons a t ih =>
      have hp2 : ¬ p a = true := by simp [h a (List.mem_cons_self a t)]
      rw [List.find?_cons_of_neg _ hp2]
      exact ih (fun x hx => h x (List.mem_cons_of_mem a hx))

theorem mapP_id_of {α : Type} (g : α → α) (l : List α)
    (h : ∀ x ∈ l, g x = x) : l.map g = l := by
  induction l with
  | nil => simp
  | cons a t ih =>
      rw [List.map_cons, h a (List.mem_cons_self a t),
        ih (fun x hx => h x (List.mem_cons_of_mem a hx))]

/-- How one service operation may change the refresh-token table: existing
rows keep their digest (and are never un-revoked), and any appended row was
issued with a `jti` drawn at or after the current freshness counter. -/
def RefreshEvolves (s t : State) : Prop :=
  s.counter ≤ t.counter ∧
  ∃ g rows,
    (∀ row : RefreshRow, (g row).tokenHash = row.tokenHash) ∧
    (∀ row : RefreshRow, row.revoked = true → (g row).revoked = true) ∧
    (∀ row ∈ rows, ∃ k, row.tokenHash.payload.jti = some k ∧ s.counter ≤ k) ∧
    t.refreshTokens = s.refreshTokens.map g ++ rows

theorem refreshEvolves_of_eq (s t : State) (hc : s.counter ≤ t.counter)
    (h : t.refreshTokens = s.refreshTokens) : RefreshEvolves s t := by
  refine ⟨hc, id, [], fun _ => rfl, fun _ h => h, by simp, ?_⟩
  simp [h]

theorem refreshEvolves_refl (s : State) : RefreshEvolves s s :=
  refreshEvolves_of_eq s s (Nat.le_refl _) rfl

theorem refreshEvolves_trans {s t u : State}
    (h1 : RefreshEvolves s t) (h2 : RefreshEvolves t u) : RefreshEvolves s u := by
  obtain ⟨hc1, g1, rows1, hash1, rev1, fresh1, eq1⟩ := h1
  obtain ⟨hc2, g2, rows2, hash2, rev2, fresh2, eq2⟩ := h2
  refine ⟨Nat.le_trans hc1 hc2, fun row => g2 (g1 row), rows1.map g2 ++ rows2,
    fun row => (hash2 (g1 row)).trans (hash1 row),
    fun row h => rev2 (g1 row) (rev1 row h), ?_, ?_⟩
  · intro row hrow
    rcases List.mem_append.mp hrow with hmem | hmem
    · obtain ⟨row0, hrow0, rfl⟩ := List.mem_map.mp hmem
      obtain ⟨k, hk, hck⟩ := fresh1 row0 hrow0
      exact ⟨k, by rw [hash2 row0]; exact hk, hck⟩
    · obtain ⟨k, hk, hck⟩ := fresh2 row hmem
      exact ⟨k, hk, Nat.le_trans hc1 hck⟩
  · rw [eq2, eq1]
    simp [List.map_append, List.map_map, Function.comp]

theorem set_password_frame (s : State) (u : Nat) (p : String) (n : Nat) :
    (set_password s u p n).refreshTokens = s.refreshTokens ∧
    (set_password s u p n).counter = s.counter + 1 := by
  unfold set_password
  dsimp only
  split <;> exact ⟨rfl, rfl⟩

theorem set_password_evolves (s : State) (u : Nat) (p : String) (n : Nat) :
    RefreshEvolves s (set_password s u p n) := by
  obtain ⟨h1, h2⟩ := set_password_frame s u p n
  exact refreshEvolves_of_eq _ _ (by omega) h1

theorem verify_password_evolves (s : State) (u : Nat) (p : String) (n : Nat) :
    RefreshEvolves s (verify_password s u p n).2 := by
  unfold verify_password
  dsimp only
  split
  · exact refreshEvolves_refl s
  · split
    · exact refreshEvolves_refl s
    · split
      · exact set_password_evolves s u p n
      · exact refreshEvolves_refl s

theorem create_user_evolves (s : State) (e : String) (p : Option String)
    (d : Option String) (n : Nat) : RefreshEvolves s (create_user s e p d n).2 := by
  unfold create_user
  dsimp only
  cases p with
  | none =>
      exact refreshEvolves_of_eq _ _ (Nat.le_succ _) rfl
  | some pw =>
      dsimp only
      by_cases hpw : pw = ""
      · rw [if_neg (by simp [hpw])]
        exact refreshEvolves_of_eq _ _ (Nat.le_succ _) rfl
      · rw [if_pos hpw]
        refine refreshEvolves_trans ?_ (set_password_evolves _ _ _ _)
        exact refreshEvolves_of_eq _ _ (Nat.le_succ _) rfl

theorem create_tokens_evolves (s : State) (user : User) (n : Nat) :
    RefreshEvolves s (create_tokens s user n).2 := by
  refine ⟨by simp [create_tokens], id,
    [{ id := s.counter + 1, userId := user.id,
       tokenHash := jwtEncode
         { sub := user.id, email := none, typ := "refresh",
           exp := n + settings.jwt_refresh_token_expire_days * 86400, iat := n,
           jti := some s.counter } settings.jwt_secret_key,
       expiresAt := n + settings.jwt_refresh_token_expire_days * 86400,
       revoked := false, createdAt := n }],
    fun _ => rfl, fun _ h => h, ?_, ?_⟩
  · intro row hrow
    rw [List.mem_singleton] at hrow
    subst hrow
    exact ⟨s.counter, rfl, Nat.le_refl _⟩
  · simp [create_tokens, jwtEncode]

theorem revoke_map_evolves (s : State) (cond : RefreshRow → Prop)
    [DecidablePred cond] :
    RefreshEvolves s
      { s with refreshTokens :=
          s.refreshTokens.map (fun row =>
            if cond row then { row with revoked := true } else row) } := by
  refine ⟨Nat.le_refl _,
    (fun row => if cond row then { row with revoked := true } else row), [],
    ?_, ?_, by simp, by simp⟩
  · intro row
    by_cases h : cond row <;> simp [h]
  · intro row hrev
    by_cases h : cond row <;> simp [h, hrev]

theorem refresh_tokens_evolves (s : State) (t : Jwt) (n : Nat) :
    RefreshEvolves s (refresh_tokens s t n).2 := by
  unfold refresh_tokens
  dsimp only
  split
  · exact refreshEvolves_refl s
  · split
    · exact refreshEvolves_refl s
    · split
      · exact refreshEvolves_refl s
      · split
        · exact refreshEvolves_refl s
        · split
          · exact revoke_map_evolves s _
          · split
            · exact revoke_map_evolves s _
            · refine refreshEvolves_trans ?_ (create_tokens_evolves _ _ _)
              exact revoke_map_evolves s _

theorem revoke_refresh_token_evolves (s : State) (t : Jwt) :
    RefreshEvolves s (revoke_refresh_token s t).2 := by
  unfold revoke_refresh_token
  exact revoke_map_evolves s _

theorem revoke_all_user_tokens_evolves (s : State) (u : Nat) :
    RefreshEvolves s (revoke_all_user_tokens s u).2 := by
  unfold revoke_all_user_tokens
  exact revoke_map_evolves s _

theorem reg_options_evolves (s : State) (u : User) :
    RefreshEvolves s (generate_passkey_registration_options s u).2 :=
  refreshEvolves_of_eq _ _ (Nat.le_succ _) rfl

theorem reg_verify_evolves (s : State) (u : User) (c : RegCredential)
    (f : Option String) (n : Nat) :
    RefreshEvolves s (verify_passkey_registration s u c f n).2 := by
  unfold verify_passkey_registration
  dsimp only
  split
  · exact refreshEvolves_of_eq _ _ (Nat.le_refl _) rfl
  · split
    · exact refreshEvolves_of_eq _ _ (Nat.le_refl _) rfl
    · exact refreshEvolves_of_eq _ _ (Nat.le_succ _) rfl

theorem auth_options_evolves (s : State) (e : Option String) :
    RefreshEvolves s (generate_passkey_authentication_options s e).2 :=
  refreshEvolves_of_eq _ _ (Nat.le_add_right _ 2) rfl

theorem auth_verify_evolves (s : State) (c : AuthCredential) (k : ChalKey)
    (n : Nat) : RefreshEvolves s (verify_passkey_authentication s c k n).2 := by
  unfold verify_passkey_authentication
  dsimp only
  split
  · exact refreshEvolves_of_eq _ _ (Nat.le_refl _) rfl
  · split
    · exact refreshEvolves_of_eq _ _ (Nat.le_refl _) rfl
    · split
      · exact refreshEvolves_of_eq _ _ (Nat.le_refl _) rfl
      · split
        · exact refreshEvolves_of_eq _ _ (Nat.le_refl _) rfl
        · exact refreshEvolves_of_eq _ _ (Nat.le_refl _) rfl

theorem delete_passkey_evolves (s : State) (u p : Nat) :
    RefreshEvolves s (delete_passkey s u p).2 :=
  refreshEvolves_of_eq _ _ (Nat.le_refl _) rfl

theorem applyOp_evolves (s : State) (op : Op) : RefreshEvolves s (applyOp s op) := by
  cases op with
  | createUserOp e p d n => exact create_user_evolves s e p d n
  | setPasswordOp u p n => exact set_password_evolves s u p n
  | verifyPasswordOp u p n => exact verify_password_evolves s u p n
  | createTokensOp u n => exact create_tokens_evolves s u n
  | refreshTokensOp t n => exact refresh_tokens_evolves s t n
  | revokeRefreshTokenOp t => exact revoke_refresh_token_evolves s t
  | revokeAllUserTokensOp u => exact revoke_all_user_tokens_evolves s u
  | regOptionsOp u => exact reg_options_evolves s u
  | regVerifyOp u c f n => exact reg_verify_evolves s u c f n
  | authOptionsOp e => exact auth_options_evolves s e
  | authVerifyOp c k n => exact auth_verify_evolves s c k n
  | deletePasskeyOp u p => exact delete_passkey_evolves s u p

/-- The token's `jti` claim exists and is below `n`. -/
def jtiBelow (t : Jwt) (n : Nat) : Bool :=
  match t.payload.jti with
  | some j => decide (j < n)
  | none => false

/-- Invariant of every reachable service state: each stored refresh-token
digest came from a token whose `jti` was drawn from the freshness counter, so
it lies strictly below the current counter. -/
def JtiInv (s : State) : Prop :=
  ∀ row ∈ s.refreshTokens, jtiBelow row.tokenHash s.counter = true

/-- The token `r` is burned in state `s`: its `jti` is older than the counter
(so no later issuance can recreate its digest) and the first stored row
matching its digest — the one `fetchone` returns — is revoked. -/
def BurnedInv (r : Jwt) (s : State) : Prop :=
  jtiBelow r s.counter = true ∧
  ∀ row, findRefreshRow s r = some row → row.revoked = true

theorem jtiBelow_mono {r : Jwt} {m n : Nat} (h : jtiBelow r m = true)
    (hmn : m ≤ n) : jtiBelow r n = true := by
  unfold jtiBelow at h ⊢
  cases hj : r.payload.jti with
  | none => rw [hj] at h; exact absurd h (by simp)
  | some j =>
      rw [hj] at h
      simp only [decide_eq_true_eq] at h ⊢
      omega

theorem burned_preserved {r : Jwt} {s t : State} (hb : BurnedInv r s)
    (he : RefreshEvolves s t) : BurnedInv r t := by
  obtain ⟨hjti, hfind⟩ := hb
  obtain ⟨hc, g, rows, hash, rev, fresh, eq⟩ := he
  refine ⟨jtiBelow_mono hjti hc, ?_⟩
  intro row2 h2
  unfold findRefreshRow at h2 hfind
  rw [eq] at h2
  have hpres : ∀ x : RefreshRow,
      (fun row => decide (row.tokenHash = r)) (g x) =
      (fun row => decide (row.tokenHash = r)) x := by
    intro x; simp [hash x]
  cases hfound : s.refreshTokens.find? (fun row => decide (row.tokenHash = r)) with
  | some row0 =>
      have : (s.refreshTokens.map g).find? (fun row => decide (row.tokenHash = r))
          = some (g row0) := by
        rw [findP_map g _ hpres, hfound]
        rfl
      rw [findP_append_some _ _ _ _ this] at h2
      cases h2
      exact rev row0 (hfind row0 hfound)
  | none =>
      have hmapnone : (s.refreshTokens.map g).find?
          (fun row => decide (row.tokenHash = r)) = none := by
        rw [findP_map g _ hpres, hfound]
        rfl
      rw [findP_append_none _ _ _ hmapnone] at h2
      have : rows.find? (fun row => decide (row.tokenHash = r)) = none := by
        apply findP_none_of_all
        intro x hx
        obtain ⟨k, hk, hsk⟩ := fresh x hx
        simp only [decide_eq_false_iff_not]
        intro hxr
        unfold jtiBelow at hjti
        rw [← hxr, hk] at hjti
        simp only [decide_eq_true_eq] at hjti
        omega
      rw [this] at h2
      cases h2

theorem applyOps_burned {r : Jwt} {s : State} (hb : BurnedInv r s)
    (ops : List Op) : BurnedInv r (applyOps s ops) := by
  induction ops generalizing s with
  | nil => exact hb
  | cons op rest ih =>
      exact ih (burned_preserved hb (applyOp_evolves s op))

theorem refresh_tokens_of_burned {r : Jwt} {s : State} (hb : BurnedInv r s)
    (n : Nat) : (refresh_tokens s r n).1 = none := by
  unfold refresh_tokens
  dsimp only
  cases h1 : jwtDecode r settings.jwt_secret_key n with
  | none => rfl
  | some payload =>
      dsimp only
      by_cases h2 : payload.typ ≠ "refresh"
      · rw [if_pos h2]
      · rw [if_neg h2]
        cases h3 : findRefreshRow s r with
        | none => rfl
        | some row =>
            dsimp only
            rw [if_pos (hb.2 row h3)]

theorem refresh_tokens_result_shape (s : State) (r : Jwt) (n : Nat)
    (payload : JwtPayload) (row : RefreshRow)
    (h1 : jwtDecode r settings.jwt_secret_key n = some payload)
    (h2 : payload.typ = "refresh")
    (h3 : findRefreshRow s r = some row)
    (h4 : row.revoked = false) :
    ∃ rows2, (refresh_tokens s r n).2.refreshTokens =
      s.refreshTokens.map
        (fun rw => if rw.id = row.id then { rw with revoked := true } else rw)
      ++ rows2 := by
  unfold refresh_tokens
  rw [h1]
  dsimp only
  rw [if_neg (by simp [h2]), h3]
  dsimp only
  rw [if_neg (by simp [h4])]
  split
  · exact ⟨[], by simp⟩
  · split
    · exact ⟨[], by simp⟩
    · rename_i user h5 h6
      refine ⟨[RefreshRow.mk (s.counter + 1) user.id
          (jwtEncode (JwtPayload.mk user.id none "refresh"
              (n + settings.jwt_refresh_token_expire_days * 86400) n (some s.counter))
            settings.jwt_secret_key)
          (n + settings.jwt_refresh_token_expire_days * 86400) false n], ?_⟩
      simp [create_tokens, jwtEncode]

theorem refresh_tokens_burn (s : State) (r : Jwt) (n : Nat)
    (payload : JwtPayload) (row : RefreshRow)
    (h1 : jwtDecode r settings.jwt_secret_key n = some payload)
    (h2 : payload.typ = "refresh")
    (h3 : findRefreshRow s r = some row)
    (h4 : row.revoked = false) :
    ∀ row2, findRefreshRow (refresh_tokens s r n).2 r = some row2 →
      row2.revoked = true := by
  obtain ⟨rows2, hshape⟩ := refresh_tokens_result_shape s r n payload row h1 h2 h3 h4
  intro row2 hfind2
  unfold findRefreshRow at h3 hfind2
  rw [hshape] at hfind2
  have hpres : ∀ x : RefreshRow,
      (fun rw => decide (rw.tokenHash = r))
        ((fun rw => if rw.id = row.id then { rw with revoked := true } else rw) x) =
      (fun rw => decide (rw.tokenHash = r)) x := by
    intro x
    by_cases hx : x.id = row.id <;> simp [hx]
  have hmap : (s.refreshTokens.map
      (fun rw => if rw.id = row.id then { rw with revoked := true } else rw)).find?
      (fun rw => decide (rw.tokenHash = r)) =
      some (if row.id = row.id then { row with revoked := true } else row) := by
    rw [findP_map _ _ hpres, h3]
    rfl
  rw [findP_append_some _ _ _ _ hmap] at hfind2
  cases hfind2
  simp

theorem refresh_tokens_success_facts (s : State) (r : Jwt) (n : Nat)
    (h : (refresh_tokens s r n).1.isSome = true) :
    ∃ payload row user,
      jwtDecode r settings.jwt_secret_key n = some payload ∧
      payload.typ = "refresh" ∧
      findRefreshRow s r = some row ∧ row.revoked = false ∧
      get_user_by_id s payload.sub = some user ∧ user.isActive = true := by
  unfold refresh_tokens at h
  dsimp only at h
  split at h
  · simp at h
  · rename_i payload h1
    split at h
    · simp at h
    · rename_i h2
      split at h
      · simp at h
      · rename_i row h3
        split at h
        · simp at h
        · rename_i h4
          split at h
          · simp at h
          · rename_i user h5
            split at h
            · simp at h
            · rename_i h6
              exact ⟨payload, row, user, h1, by simpa using h2, h3,
                by simpa using h4, h5, by simpa using h6⟩

/-- C1: a refresh token rotates at most once. If `refresh_tokens` succeeds on
token `r` in a reachable state (every stored digest has a counter-issued
`jti`), then after any further sequence of service operations — including the
replay itself — calling `refresh_tokens` with the same token string returns
`None` (surfaced by the `/refresh` route as 401). -/
theorem refresh_token_single_use (s : State) (r : Jwt) (now : Nat)
    (hinv : JtiInv s)
    (hsucc : (refresh_tokens s r now).1.isSome = true)
    (ops : List Op) (now2 : Nat) :
    (refresh_tokens (applyOps (refresh_tokens s r now).2 ops) r now2).1 = none := by
  obtain ⟨payload, row, user, h1, h2, h3, h4, h5, h6⟩ :=
    refresh_tokens_success_facts s r now hsucc
  have h3' := h3
  unfold findRefreshRow at h3'
  have hrow_mem : row ∈ s.refreshTokens := List.mem_of_find?_eq_some h3'
  have hrow_hash : row.tokenHash = r := by
    have := List.find?_some h3'
    simpa using this
  have hjti : jtiBelow r s.counter = true := by
    rw [← hrow_hash]
    exact hinv row hrow_mem
  have hb : BurnedInv r (refresh_tokens s r now).2 :=
    ⟨jtiBelow_mono hjti (refresh_tokens_evolves s r now).1,
     refresh_tokens_burn s r now payload row h1 h2 h3 h4⟩
  exact refresh_tokens_of_burned (applyOps_burned hb ops) now2

/-- Concrete refresh token for the C1 witness. -/
def tokenC1 : Jwt :=
  jwtEncode (JwtPayload.mk 0 none "refresh" 1000 0 (some 0)) settings.jwt_secret_key

/-- Concrete state for the C1 witness: one active user holding one
non-revoked refresh-token row. -/
def stateC1 : State :=
  { users := [User.mk 0 "a@b.c" none true false 0 0]
    passwordCreds := []
    passkeyCreds := []
    refreshTokens := [RefreshRow.mk 1 0 tokenC1 1000 false 0]
    challenges := []
    counter := 2 }

/-- C1 witness: a concrete successful rotation after which the replay of the
same refresh token fails. -/
theorem refresh_token_single_use_witness :
    (refresh_tokens (applyOps (refresh_tokens stateC1 tokenC1 0).2 []) tokenC1 5).1
      = none :=
  refresh_token_single_use stateC1 tokenC1 0
    (by intro row hrow; simp [stateC1] at hrow; subst hrow; decide)
    (by decide) [] 5

/-- C4 (amended): `refresh_tokens` succeeds exactly when the token decodes
under the signing key before its expiry, carries claim type `"refresh"`,
matches a stored non-revoked row, and its subject resolves to an active user.
When the token checks fail before a row is found (bad signature/expiry, wrong
type, no row, row already revoked) the stored state is unchanged; but whenever
a non-revoked row matches, that row is marked revoked — including when the
rotation then returns invalid because the subject user is missing or
inactive. -/
theorem refresh_tokens_characterization (s : State) (r : Jwt) (now : Nat) :
    ((refresh_tokens s r now).1.isSome = true ↔
      ∃ payload row user,
        jwtDecode r settings.jwt_secret_key now = some payload ∧
        payload.typ = "refresh" ∧
        findRefreshRow s r = some row ∧ row.revoked = false ∧
        get_user_by_id s payload.sub = some user ∧ user.isActive = true) ∧
    ((¬ ∃ payload row,
        jwtDecode r settings.jwt_secret_key now = some payload ∧
        payload.typ = "refresh" ∧
        findRefreshRow s r = some row ∧ row.revoked = false) →
      (refresh_tokens s r now).2 = s) ∧
    (∀ payload row,
      jwtDecode r settings.jwt_secret_key now = some payload →
      payload.typ = "refresh" →
      findRefreshRow s r = some row → row.revoked = false →
      ∀ row2, findRefreshRow (refresh_tokens s r now).2 r = some row2 →
        row2.revoked = true) := by
  refine ⟨⟨refresh_tokens_success_facts s r now, ?_⟩, ?_, ?_⟩
  · rintro ⟨payload, row, user, h1, h2, h3, h4, h5, h6⟩
    unfold refresh_tokens
    rw [h1]
    dsimp only
    rw [if_neg (by simp [h2]), h3]
    dsimp only
    rw [if_neg (by simp [h4])]
    have h5' : get_user_by_id
        { s with refreshTokens :=
            s.refreshTokens.map (fun rw =>
              if rw.id = row.id then { rw with revoked := true } else rw) }
        payload.sub = some user := h5
    rw [h5']
    dsimp only
    rw [if_neg (by simp [h6])]
    rfl
  · intro hno
    unfold refresh_tokens
    dsimp only
    cases h1 : jwtDecode r settings.jwt_secret_key now with
    | none => rfl
    | some payload =>
        dsimp only
        by_cases h2 : payload.typ ≠ "refresh"
        · rw [if_pos h2]
        · rw [if_neg h2]
          cases h3 : findRefreshRow s r with
          | none => rfl
          | some row =>
              dsimp only
              by_cases h4 : row.revoked = true
              · rw [if_pos h4]
              · exact absurd
                  ⟨payload, row, h1, by simpa using h2, h3, by simpa using h4⟩ hno
  · intro payload row h1 h2 h3 h4
    exact refresh_tokens_burn s r now payload row h1 h2 h3 h4

/-- Concrete refresh token for the C4 counterexample. -/
def tokenC4 : Jwt :=
  jwtEncode (JwtPayload.mk 0 none "refresh" 1000 0 (some 0)) settings.jwt_secret_key

/-- Concrete state for the C4 counterexample: the token's subject exists but
is disabled, while its stored row is present and non-revoked. -/
def stateC4 : State :=
  { users := [User.mk 0 "a@b.c" none false false 0 0]
    passwordCreds := []
    passkeyCreds := []
    refreshTokens := [RefreshRow.mk 1 0 tokenC4 1000 false 0]
    challenges := []
    counter := 2 }

/-- C4 counterexample: with a valid unexpired refresh token whose subject is
a disabled user, `refresh_tokens` returns invalid and nonetheless changes the
stored state (the row got revoked), contradicting the claim that the state is
unchanged whenever the result is invalid. -/
theorem refresh_tokens_invalid_mutates_cex :
    (refresh_tokens stateC4 tokenC4 0).1 = none ∧
    (refresh_tokens stateC4 tokenC4 0).2 ≠ stateC4 := by
  decide

/-- Concrete state for the C4 witness (no stored rows at all). -/
def stateC4w : State := ⟨[], [], [], [], [], 0⟩

/-- C4 witness: on a state with no stored row for the token, rotation leaves
the state unchanged. -/
theorem refresh_tokens_characterization_witness :
    (refresh_tokens stateC4w tokenC4 3).2 = stateC4w :=
  (refresh_tokens_characterization stateC4w tokenC4 3).2.1
    (by rintro ⟨p, row, h1, h2, h3, h4⟩; simp [findRefreshRow, stateC4w] at h3)

theorem chalFind_erase (m : List (ChalKey × Nat)) (k : ChalKey) :
    chalFind (chalErase m k) k = none := by
  unfold chalFind chalErase
  rw [findP_none_of_all]
  · rfl
  · intro x hx
    have hmem := List.mem_filter.mp hx
    simp only [decide_eq_true_eq] at hmem
    simp only [decide_eq_false_iff_not]
    exact hmem.2

theorem chalFind_after_pop (m : List (ChalKey × Nat)) (k : ChalKey) :
    chalFind (chalPop m k).2 k = none := by
  unfold chalPop
  cases h : chalFind m k with
  | none => exact h
  | some v => exact chalFind_erase m k

theorem reg_verify_challenges (s : State) (u : User) (c : RegCredential)
    (f : Option String) (n : Nat) :
    (verify_passkey_registration s u c f n).2.challenges =
      (chalPop s.challenges (ChalKey.user u.id)).2 := by
  unfold verify_passkey_registration
  dsimp only
  split
  · rfl
  · split <;> rfl

theorem auth_verify_challenges (s : State) (a : AuthCredential) (k : ChalKey)
    (n : Nat) :
    (verify_passkey_authentication s a k n).2.challenges =
      (chalPop s.challenges k).2 := by
  unfold verify_passkey_authentication
  dsimp only
  split
  · rfl
  · split
    · rfl
    · split
      · rfl
      · split <;> rfl

theorem reg_verify_no_challenge (s : State) (u : User) (c : RegCredential)
    (f : Option String) (n : Nat)
    (h : chalFind s.challenges (ChalKey.user u.id) = none) :
    (verify_passkey_registration s u c f n).1 =
      Except.error (PyExc.valueError "No registration challenge found") := by
  unfold verify_passkey_registration chalPop
  rw [h]

theorem auth_verify_no_challenge (s : State) (a : AuthCredential) (k : ChalKey)
    (n : Nat) (h : chalFind s.challenges k = none) :
    (verify_passkey_authentication s a k n).1 =
      Except.error (PyExc.valueError "No authentication challenge found") := by
  unfold verify_passkey_authentication chalPop
  rw [h]

/-- C2: a WebAuthn challenge is consumed at most once. Whatever the outcome of
a first verify call (which pops the challenge before anything else), a second
verify presenting the same challenge key — the user id for registration, the
minted key for authentication — fails with the corresponding "no challenge
found" `ValueError`. -/
theorem challenge_consumed_at_most_once (s : State) (user : User)
    (c1 c2 : RegCredential) (f1 f2 : Option String) (n1 n2 : Nat)
    (a1 a2 : AuthCredential) (k : ChalKey) (m1 m2 : Nat) :
    ((verify_passkey_registration
        (verify_passkey_registration s user c1 f1 n1).2 user c2 f2 n2).1 =
      Except.error (PyExc.valueError "No registration challenge found")) ∧
    ((verify_passkey_authentication
        (verify_passkey_authentication s a1 k m1).2 a2 k m2).1 =
      Except.error (PyExc.valueError "No authentication challenge found")) := by
  constructor
  · apply reg_verify_no_challenge
    rw [reg_verify_challenges]
    exact chalFind_after_pop _ _
  · apply auth_verify_no_challenge
    rw [auth_verify_challenges]
    exact chalFind_after_pop _ _

theorem set_password_lookup (s : State) (u : Nat) (p : String) (n : Nat) :
    ∃ c, (set_password s u p n).passwordCreds.find?
        (fun c => decide (c.userId = u)) = some c ∧
      c.passwordHash = argonHash p := by
  unfold set_password
  dsimp only
  cases hf : s.passwordCreds.find? (fun c => decide (c.userId = u)) with
  | none =>
      dsimp only
      refine ⟨PasswordCred.mk s.counter u (argonHash p) n n, ?_, rfl⟩
      rw [findP_append_none _ _ _ hf]
      simp [List.find?]
  | some c0 =>
      dsimp only
      have hc0 : c0.userId = u := by simpa using List.find?_some hf
      have hpres : ∀ x : PasswordCred,
          (fun c => decide (c.userId = u))
            ((fun c => if c.userId = u then
                { c with passwordHash := argonHash p, updatedAt := n } else c) x) =
          (fun c => decide (c.userId = u)) x := by
        intro x
        by_cases hx : x.userId = u <;> simp [hx]
      refine ⟨PasswordCred.mk c0.id c0.userId (argonHash p) c0.createdAt n, ?_, rfl⟩
      rw [findP_map _ _ hpres, hf]
      simp [hc0]

/-- C5: password verification round-trips with hashing. After
`set_password(u, p)`, `verify_password(u, p)` returns `true`, and for any
`p2 ≠ p`, `verify_password(u, p2)` returns `false` (the library's mismatch
signal is caught and converted, never surfaced). -/
theorem password_roundtrip (s : State) (userId : Nat) (p p2 : String)
    (n1 n2 n3 : Nat) (hne : p2 ≠ p) :
    (verify_password (set_password s userId p n1) userId p n2).1 = true ∧
    (verify_password (set_password s userId p n1) userId p2 n3).1 = false := by
  obtain ⟨c, hfind, hhash⟩ := set_password_lookup s userId p n1
  constructor
  · unfold verify_password
    rw [hfind]
    dsimp only
    rw [hhash]
    simp [argonVerify, argonNeedsRehash, argonHash]
  · unfold verify_password
    rw [hfind]
    dsimp only
    rw [hhash]
    have hne2 : ¬ ((argonHash p).pw = p2) := by
      simp only [argonHash]
      exact fun h => hne h.symm
    simp [argonVerify, hne2]

/-- C5 witness: a concrete set-then-verify pair. -/
theorem password_roundtrip_witness :
    (verify_password (set_password ⟨[], [], [], [], [], 0⟩ 0 "a" 0) 0 "a" 0).1 = true ∧
    (verify_password (set_password ⟨[], [], [], [], [], 0⟩ 0 "a" 0) 0 "b" 0).1 = false :=
  password_roundtrip ⟨[], [], [], [], [], 0⟩ 0 "a" "b" 0 0 0 (by decide)

theorem revoked_map_countP (l : List RefreshRow) (tok : Jwt) :
    (l.map (fun row =>
        if row.tokenHash = tok ∧ row.revoked = false then
          { row with revoked := true } else row)).countP
      (fun row => decide (row.tokenHash = tok ∧ row.revoked = false)) = 0 := by
  rw [List.countP_eq_zero]
  intro a ha
  obtain ⟨b, hb, rfl⟩ := List.mem_map.mp ha
  by_cases hcond : b.tokenHash = tok ∧ b.revoked = false
  · rw [if_pos hcond]
    simp
  · rw [if_neg hcond]
    simpa using hcond

theorem revoke_refresh_token_refresh (s : State) (tok : Jwt) :
    (revoke_refresh_token s tok).2.refreshTokens =
      s.refreshTokens.map (fun row =>
        if row.tokenHash = tok ∧ row.revoked = false then
          { row with revoked := true } else row) := rfl

/-- C7: `revoke_refresh_token` is an idempotent total no-op on revoked or
unknown tokens. When every stored row matching the token (possibly none) is
already revoked, it reports no effect and leaves the store unchanged; and an
immediate second call never reports an effect, so two calls in a row return
`true` at most once. It is a total function — no input raises. -/
theorem revoke_refresh_token_idempotent (s : State) (tok : Jwt) :
    ((∀ row ∈ s.refreshTokens, row.tokenHash = tok → row.revoked = true) →
      (revoke_refresh_token s tok).1 = false ∧ (revoke_refresh_token s tok).2 = s) ∧
    (revoke_refresh_token (revoke_refresh_token s tok).2 tok).1 = false := by
  constructor
  · intro h
    have hc : s.refreshTokens.countP
        (fun row => decide (row.tokenHash = tok ∧ row.revoked = false)) = 0 := by
      rw [List.countP_eq_zero]
      intro a ha
      simp only [decide_eq_true_eq, not_and]
      intro h1 h2
      rw [h a ha h1] at h2
      exact absurd h2 (by simp)
    constructor
    · unfold revoke_refresh_token
      dsimp only
      rw [hc]
      rfl
    · unfold revoke_refresh_token
      dsimp only
      have hmap : s.refreshTokens.map (fun row =>
          if row.tokenHash = tok ∧ row.revoked = false then
            { row with revoked := true } else row) = s.refreshTokens := by
        apply mapP_id_of
        intro x hx
        rw [if_neg]
        rintro ⟨h1, h2⟩
        rw [h x hx h1] at h2
        exact absurd h2 (by simp)
      rw [hmap]
  · conv_lhs => rw [revoke_refresh_token]
    dsimp only
    rw [revoke_refresh_token_refresh, revoked_map_countP]
    rfl

/-- C7 witness: a concrete already-revoked row, then an unknown token. -/
theorem revoke_refresh_token_idempotent_witness :
    (revoke_refresh_token
      ⟨[], [], [],
       [RefreshRow.mk 1 0 (jwtEncode (JwtPayload.mk 0 none "refresh" 9 0 (some 0))
          settings.jwt_secret_key) 9 true 0], [], 2⟩
      (jwtEncode (JwtPayload.mk 0 none "refresh" 9 0 (some 0))
        settings.jwt_secret_key)).1 = false ∧
    (revoke_refresh_token
      ⟨[], [], [],
       [RefreshRow.mk 1 0 (jwtEncode (JwtPayload.mk 0 none "refresh" 9 0 (some 0))
          settings.jwt_secret_key) 9 true 0], [], 2⟩
      (jwtEncode (JwtPayload.mk 0 none "refresh" 9 0 (some 0))
        settings.jwt_secret_key)).2 =
      ⟨[], [], [],
       [RefreshRow.mk 1 0 (jwtEncode (JwtPayload.mk 0 none "refresh" 9 0 (some 0))
          settings.jwt_secret_key) 9 true 0], [], 2⟩ :=
  (revoke_refresh_token_idempotent _ _).1 (by decide)

/-- Concrete user for the C3 failing input. -/
def userC3 : User := User.mk 0 "alice@example.com" none true false 0 0

/-- Concrete stored passkey for the C3 failing input. -/
def passkeyC3 : PasskeyCred :=
  PasskeyCred.mk 1 0 77 500 5 none false [] none none 0 none

/-- C3 failing input state for login verify: a stored authentication
challenge (value 42 under a minted key) and a registered passkey. -/
def stateC3 : State :=
  ⟨[userC3], [], [passkeyC3], [], [(ChalKey.random 9, 42)], 10⟩

/-- An assertion over the right credential whose embedded challenge (41)
differs from the stored one (42): the library's cryptographic verification
fails and raises `InvalidAuthenticationResponse`. -/
def badAssertC3 : AuthCredential :=
  AuthCredential.mk 77 41 "http://localhost:5700" "localhost" 500 6

/-- C3 failing input state for registration verify: a stored registration
challenge under the user's id. -/
def stateRegC3 : State :=
  ⟨[userC3], [], [], [], [(ChalKey.user 0, 42)], 10⟩

/-- An attestation whose embedded challenge mismatches the stored one: the
library raises `InvalidRegistrationResponse`. -/
def badRegC3 : RegCredential :=
  RegCredential.mk 41 "http://localhost:5700" "localhost" 88 600 0 false none [] none true

/-- C3: the facade's `except ValueError` does not cover the library's
cryptographic-verification failures. A missing challenge (a `ValueError`) is
caught and mapped to 401, but a failing assertion or attestation raises
py_webauthn's `InvalidAuthenticationResponse` / `InvalidRegistrationResponse`
(subclasses of `Exception`, not `ValueError`), which escape both handlers
unhandled instead of becoming 401/400. -/
theorem passkey_crypto_failure_escapes_handler :
    ((login_passkey_verify stateC3
        (PasskeyAuthVerifyRequest.mk badAssertC3 (some (ChalKey.random 9))) 0).1 =
      HResult.unhandled
        (PyExc.invalidAuthenticationResponse "Authentication verification failed")) ∧
    ((login_passkey_verify stateC3
        (PasskeyAuthVerifyRequest.mk badAssertC3 (some (ChalKey.random 8))) 0).1 =
      HResult.httpError 401 "No authentication challenge found") ∧
    ((passkey_register_verify stateRegC3 0 badRegC3 none 0).1 =
      HResult.unhandled
        (PyExc.invalidRegistrationResponse "Registration verification failed")) := by
  decide

/-- C9: the authentication-options allow-list. With no email the allow-list
stays empty; with an email resolving to no user it stays empty (any
authenticator may respond — discoverable-credential flow); with a truthy
email resolving to a known user it holds exactly that user's stored passkey
credential ids paired with their transports. -/
theorem auth_options_allowlist (s : State) (e : String) (user : User) :
    ((generate_passkey_authentication_options s none).1.allowCredentials = []) ∧
    (get_user_by_email s e = none →
      (generate_passkey_authentication_options s (some e)).1.allowCredentials = []) ∧
    (e ≠ "" → get_user_by_email s e = some user →
      ∀ cid ts,
        ((cid, ts) ∈
          (generate_passkey_authentication_options s (some e)).1.allowCredentials ↔
        ∃ c ∈ s.passkeyCreds,
          c.userId = user.id ∧ c.credentialId = cid ∧ c.transports = ts)) := by
  refine ⟨rfl, ?_, ?_⟩
  · intro h
    unfold generate_passkey_authentication_options
    dsimp only
    by_cases he : e ≠ ""
    · rw [if_pos he, h]
    · rw [if_neg he]
  · intro he hu cid ts
    unfold generate_passkey_authentication_options
    dsimp only
    rw [if_pos he, hu]
    constructor
    · intro hmem
      obtain ⟨c, hc, heq⟩ := List.mem_map.mp hmem
      obtain ⟨hcl, hcu⟩ := List.mem_filter.mp hc
      injection heq with h1 h2
      exact ⟨c, hcl, by simpa using hcu, h1, h2⟩
    · rintro ⟨c, hcl, hu2, h1, h2⟩
      apply List.mem_map.mpr
      exact ⟨c, List.mem_filter.mpr ⟨hcl, by simp [hu2]⟩, by rw [h1, h2]⟩

/-- Concrete user for the C9 witness. -/
def userC9 : User := User.mk 0 "bob@x.y" none true false 0 0

/-- Concrete state for the C9 witness: that user owns one passkey with
credential id 7 and transport list `["usb"]`. -/
def stateC9 : State :=
  ⟨[userC9], [],
   [PasskeyCred.mk 1 0 7 500 5 none false ["usb"] none none 0 none],
   [], [], 2⟩

/-- C9 witness: the empty-email call yields an empty allow-list, and for the
known user the allow-list membership matches the stored credential. -/
theorem auth_options_allowlist_witness :
    ((generate_passkey_authentication_options stateC9 none).1.allowCredentials = []) ∧
    ((7, ["usb"]) ∈
        (generate_passkey_authentication_options stateC9 (some "bob@x.y")).1.allowCredentials ↔
      ∃ c ∈ stateC9.passkeyCreds,
        c.userId = userC9.id ∧ c.credentialId = 7 ∧ c.transports = ["usb"]) :=
  ⟨(auth_options_allowlist stateC9 "bob@x.y" userC9).1,
   (auth_options_allowlist stateC9 "bob@x.y" userC9).2.2 (by decide) (by decide)
     7 ["usb"]⟩

/-- A refresh-token revocation request: single-token logout or
log-out-everywhere. -/
inductive RevocationOp
  | one (token : Jwt)
  | all (userId : Nat)
deriving DecidableEq

/-- State effect of one revocation. -/
def applyRevocation (s : State) : RevocationOp → State
  | .one t => (revoke_refresh_token s t).2
  | .all u => (revoke_all_user_tokens s u).2

/-- State effect of a sequence of revocations. -/
def applyRevocations (s : State) (ops : List RevocationOp) : State :=
  ops.foldl applyRevocation s

/-- Row-wise frame of a revocation: every field is preserved except that the
`revoked` flag may move from false to true. -/
def RefreshFrame (a b : RefreshRow) : Prop :=
  a.id = b.id ∧ a.userId = b.userId ∧ a.tokenHash = b.tokenHash ∧
  a.expiresAt = b.expiresAt ∧ a.createdAt = b.createdAt ∧
  (a.revoked = true → b.revoked = true)

theorem refreshFrame_list_refl (l : List RefreshRow) :
    List.Forall₂ RefreshFrame l l := by
  induction l with
  | nil => exact List.Forall₂.nil
  | cons a t ih => exact List.Forall₂.cons ⟨rfl, rfl, rfl, rfl, rfl, id⟩ ih

theorem refreshFrame_map (g : RefreshRow → RefreshRow)
    (hg : ∀ a, RefreshFrame a (g a)) (l : List RefreshRow) :
    List.Forall₂ RefreshFrame l (l.map g) := by
  induction l with
  | nil => exact List.Forall₂.nil
  | cons a t ih => exact List.Forall₂.cons (hg a) ih

theorem refreshFrame_trans {l m k : List RefreshRow}
    (h1 : List.Forall₂ RefreshFrame l m) (h2 : List.Forall₂ RefreshFrame m k) :
    List.Forall₂ RefreshFrame l k := by
  induction h1 generalizing k with
  | nil => cases h2; exact List.Forall₂.nil
  | cons hab h1 ih =>
      cases h2 with
      | cons hbc h2 =>
          obtain ⟨e1, e2, e3, e4, e5, e6⟩ := hab
          obtain ⟨f1, f2, f3, f4, f5, f6⟩ := hbc
          exact List.Forall₂.cons
            ⟨e1.trans f1, e2.trans f2, e3.trans f3, e4.trans f4, e5.trans f5,
             fun h => f6 (e6 h)⟩ (ih h2)

theorem refreshFrame_revoke_fn (cond : RefreshRow → Prop) [DecidablePred cond]
    (a : RefreshRow) :
    RefreshFrame a (if cond a then { a with revoked := true } else a) := by
  by_cases h : cond a
  · rw [if_pos h]
    exact ⟨rfl, rfl, rfl, rfl, rfl, fun _ => rfl⟩
  · rw [if_neg h]
    exact ⟨rfl, rfl, rfl, rfl, rfl, id⟩

theorem applyRevocation_frame (s : State) (op : RevocationOp) :
    (applyRevocation s op).users = s.users ∧
    (applyRevocation s op).passwordCreds = s.passwordCreds ∧
    (applyRevocation s op).passkeyCreds = s.passkeyCreds ∧
    (applyRevocation s op).challenges = s.challenges ∧
    (applyRevocation s op).counter = s.counter ∧
    List.Forall₂ RefreshFrame s.refreshTokens (applyRevocation s op).refreshTokens := by
  cases op with
  | one t =>
      refine ⟨rfl, rfl, rfl, rfl, rfl, ?_⟩
      exact refreshFrame_map _ (refreshFrame_revoke_fn _) s.refreshTokens
  | all u =>
      refine ⟨rfl, rfl, rfl, rfl, rfl, ?_⟩
      exact refreshFrame_map _ (refreshFrame_revoke_fn _) s.refreshTokens

/-- C10: `verify_access_token` reads no stored state (its body uses only the
token, the signing key and the algorithm), and refresh-token revocations —
single logout or log-out-everywhere, in any number and order — change nothing
but `revoked` flags of refresh-token rows (false to true only). Hence every
access token verifies identically before and after any revocations:
outstanding access tokens stay valid until their own expiry. -/
theorem access_token_unaffected_by_revocations (s : State)
    (ops : List RevocationOp) (tok : Jwt) (now : Nat) :
    verify_access_token (applyRevocations s ops) tok now =
      verify_access_token s tok now ∧
    (applyRevocations s ops).users = s.users ∧
    (applyRevocations s ops).passwordCreds = s.passwordCreds ∧
    (applyRevocations s ops).passkeyCreds = s.passkeyCreds ∧
    (applyRevocations s ops).challenges = s.challenges ∧
    (applyRevocations s ops).counter = s.counter ∧
    List.Forall₂ RefreshFrame s.refreshTokens (applyRevocations s ops).refreshTokens := by
  induction ops generalizing s with
  | nil => exact ⟨rfl, rfl, rfl, rfl, rfl, rfl, refreshFrame_list_refl _⟩
  | cons op rest ih =>
      obtain ⟨f1, f2, f3, f4, f5, f6⟩ := applyRevocation_frame s op
      obtain ⟨g0, g1, g2, g3, g4, g5, g6⟩ := ih (applyRevocation s op)
      exact ⟨rfl, g1.trans f1, g2.trans f2, g3.trans f3, g4.trans f4,
        g5.trans f5, refreshFrame_trans f6 g6⟩

/-- Whether the outcome of a fallible service call is a success. -/
def exOk {ε α : Type} : Except ε α → Bool
  | .ok _ => true
  | .error _ => false

/-- Whether an operation is the passkey-delete endpoint's service call. -/
def Op.isDeletePasskey : Op → Bool
  | .deletePasskeyOp _ _ => true
  | _ => false

/-- Every passkey credential of `s` survives into `t` with its owner and
credential id intact (other fields, e.g. the sign count, may change). -/
def PasskeyKeep (s t : State) : Prop :=
  ∀ c ∈ s.passkeyCreds, ∃ c2 ∈ t.passkeyCreds,
    c2.userId = c.userId ∧ c2.credentialId = c.credentialId

theorem passkeyKeep_of_eq (s t : State) (h : t.passkeyCreds = s.passkeyCreds) :
    PasskeyKeep s t :=
  fun c hc => ⟨c, by rw [h]; exact hc, rfl, rfl⟩

theorem passkeyKeep_trans {s t u : State} (h1 : PasskeyKeep s t)
    (h2 : PasskeyKeep t u) : PasskeyKeep s u := by
  intro c hc
  obtain ⟨c2, hc2, e1, e2⟩ := h1 c hc
  obtain ⟨c3, hc3, f1, f2⟩ := h2 c2 hc2
  exact ⟨c3, hc3, f1.trans e1, f2.trans e2⟩

theorem set_password_passkeys (s : State) (u : Nat) (p : String) (n : Nat) :
    (set_password s u p n).passkeyCreds = s.passkeyCreds := by
  unfold set_password
  dsimp only
  split <;> rfl

theorem verify_password_passkeys (s : State) (u : Nat) (p : String) (n : Nat) :
    (verify_password s u p n).2.passkeyCreds = s.passkeyCreds := by
  unfold verify_password
  dsimp only
  split
  · rfl
  · split
    · rfl
    · split
      · exact set_password_passkeys _ _ _ _
      · rfl

theorem create_user_passkeys (s : State) (e : String) (p : Option String)
    (d : Option String) (n : Nat) :
    (create_user s e p d n).2.passkeyCreds = s.passkeyCreds := by
  unfold create_user
  dsimp only
  cases p with
  | none => rfl
  | some pw =>
      dsimp only
      by_cases hpw : pw = ""
      · rw [if_neg (by simp [hpw])]
      · rw [if_pos hpw]
        exact set_password_passkeys _ _ _ _

theorem refresh_tokens_passkeys (s : State) (t : Jwt) (n : Nat) :
    (refresh_tokens s t n).2.passkeyCreds = s.passkeyCreds := by
  unfold refresh_tokens
  dsimp only
  split
  · rfl
  · split
    · rfl
    · split
      · rfl
      · split
        · rfl
        · split
          · rfl
          · split
            · rfl
            · rfl

theorem passkeyKeep_map (s : State) (g : PasskeyCred → PasskeyCred)
    (hg : ∀ c, (g c).userId = c.userId ∧ (g c).credentialId = c.credentialId)
    (t : State) (ht : t.passkeyCreds = s.passkeyCreds.map g) : PasskeyKeep s t :=
  fun c hc =>
    ⟨g c, by rw [ht]; exact List.mem_map_of_mem g hc, (hg c).1, (hg c).2⟩

theorem auth_verify_keep (s : State) (a : AuthCredential) (k : ChalKey)
    (n : Nat) : PasskeyKeep s (verify_passkey_authentication s a k n).2 := by
  unfold verify_passkey_authentication
  dsimp only
  split
  · exact passkeyKeep_of_eq _ _ rfl
  · split
    · exact passkeyKeep_of_eq _ _ rfl
    · rename_i challenge hpop db_cred hfound
      split
      · exact passkeyKeep_of_eq _ _ rfl
      · split
        all_goals
          refine passkeyKeep_map s _ ?_ _ rfl
          intro c
          by_cases hc : c.id = db_cred.id
          · rw [if_pos hc]; exact ⟨rfl, rfl⟩
          · rw [if_neg hc]; exact ⟨rfl, rfl⟩

theorem reg_verify_keep (s : State) (u : User) (c : RegCredential)
    (f : Option String) (n : Nat) :
    PasskeyKeep s (verify_passkey_registration s u c f n).2 := by
  unfold verify_passkey_registration
  dsimp only
  split
  · exact passkeyKeep_of_eq _ _ rfl
  · split
    · exact passkeyKeep_of_eq _ _ rfl
    · intro cred hcred
      exact ⟨cred, List.mem_append_left _ hcred, rfl, rfl⟩

theorem applyOp_passkey_keep (s : State) (op : Op)
    (h : op.isDeletePasskey = false) : PasskeyKeep s (applyOp s op) := by
  cases op with
  | deletePasskeyOp u p => simp [Op.isDeletePasskey] at h
  | createUserOp e p d n => exact passkeyKeep_of_eq _ _ (create_user_passkeys s e p d n)
  | setPasswordOp u p n => exact passkeyKeep_of_eq _ _ (set_password_passkeys s u p n)
  | verifyPasswordOp u p n => exact passkeyKeep_of_eq _ _ (verify_password_passkeys s u p n)
  | createTokensOp u n => exact passkeyKeep_of_eq _ _ rfl
  | refreshTokensOp t n => exact passkeyKeep_of_eq _ _ (refresh_tokens_passkeys s t n)
  | revokeRefreshTokenOp t => exact passkeyKeep_of_eq _ _ rfl
  | revokeAllUserTokensOp u => exact passkeyKeep_of_eq _ _ rfl
  | regOptionsOp u => exact passkeyKeep_of_eq _ _ rfl
  | authOptionsOp e => exact passkeyKeep_of_eq _ _ rfl
  | regVerifyOp u c f n => exact reg_verify_keep s u c f n
  | authVerifyOp c k n => exact auth_verify_keep s c k n

theorem applyOps_passkey_keep (s : State) (ops : List Op)
    (h : ∀ op ∈ ops, op.isDeletePasskey = false) :
    PasskeyKeep s (applyOps s ops) := by
  induction ops generalizing s with
  | nil => exact passkeyKeep_of_eq _ _ rfl
  | cons op rest ih =>
      exact passkeyKeep_trans
        (applyOp_passkey_keep s op (h op (List.mem_cons_self op rest)))
        (ih (applyOp s op) (fun o ho => h o (List.mem_cons_of_mem op ho)))

theorem reg_verify_success_mem (s : State) (user : User) (cred : RegCredential)
    (fn : Option String) (now : Nat)
    (h : exOk (verify_passkey_registration s user cred fn now).1 = true) :
    ∃ c ∈ (verify_passkey_registration s user cred fn now).2.passkeyCreds,
      c.userId = user.id ∧ c.credentialId = cred.credentialId := by
  revert h
  unfold verify_passkey_registration
  dsimp only
  cases hpop : (chalPop s.challenges (ChalKey.user user.id)).1 with
  | none =>
      intro h
      simp [exOk] at h
  | some challenge =>
      dsimp only
      cases hver : verify_registration_response cred challenge
          settings.webauthn_rp_id settings.webauthn_origin with
      | error e =>
          intro h
          simp [exOk] at h
      | ok verification =>
          intro _
          have hcid : verification.credentialId = cred.credentialId := by
            unfold verify_registration_response at hver
            split at hver
            · injection hver with hv
              rw [← hv]
            · simp at hver
          refine ⟨_, List.mem_append_right _ (List.mem_singleton_self _), rfl, hcid⟩

/-- C8: the registration-options exclusion list. A user with no stored
passkeys gets an empty `excludeCredentials`; once a `verify_passkey_registration`
succeeds and persists a credential with id `c`, every later
`generate_passkey_registration_options` for that user includes `c` in the
exclusion list, across any further operations that do not delete that
passkey. -/
theorem passkey_registration_exclusion (s : State) (user : User)
    (cred : RegCredential) (fn : Option String) (now : Nat) (ops : List Op) :
    (s.passkeyCreds.filter (fun c => decide (c.userId = user.id)) = [] →
      (generate_passkey_registration_options s user).1.excludeCredentials = []) ∧
    (exOk (verify_passkey_registration s user cred fn now).1 = true →
      (∀ op ∈ ops, op.isDeletePasskey = false) →
      cred.credentialId ∈
        (generate_passkey_registration_options
          (applyOps (verify_passkey_registration s user cred fn now).2 ops)
          user).1.excludeCredentials) := by
  constructor
  · intro h
    unfold generate_passkey_registration_options
    dsimp only
    rw [h]
    rfl
  · intro hok hops
    obtain ⟨c, hc, hcu, hcid⟩ := reg_verify_success_mem s user cred fn now hok
    obtain ⟨c2, hc2, h2u, h2id⟩ :=
      applyOps_passkey_keep _ ops hops c hc
    unfold generate_passkey_registration_options
    dsimp only
    apply List.mem_map.mpr
    refine ⟨c2, List.mem_filter.mpr ⟨hc2, by simp [h2u, hcu]⟩, ?_⟩
    rw [h2id, hcid]

/-- Concrete user for the C8 witness. -/
def userC8 : User := User.mk 0 "bob@example.com" none true false 0 0

/-- Concrete state for the C8 witness: no passkeys yet, one stored
registration challenge (42) under the user's id. -/
def stateC8 : State := ⟨[userC8], [], [], [], [(ChalKey.user 0, 42)], 1⟩

/-- A valid attestation for the C8 witness carrying credential id 77. -/
def credC8 : RegCredential :=
  RegCredential.mk 42 "http://localhost:5700" "localhost" 77 500 3 false none
    ["usb"] none true

/-- C8 witness: with zero stored passkeys the exclusion list is empty, and
after the successful verify the credential id 77 is excluded. -/
theorem passkey_registration_exclusion_witness :
    ((generate_passkey_registration_options stateC8 userC8).1.excludeCredentials = []) ∧
    (77 ∈ (generate_passkey_registration_options
        (applyOps (verify_passkey_registration stateC8 userC8 credC8 none 0).2 [])
        userC8).1.excludeCredentials) :=
  ⟨(passkey_registration_exclusion stateC8 userC8 credC8 none 0 []).1 (by decide),
   (passkey_registration_exclusion stateC8 userC8 credC8 none 0 []).2 (by decide)
     (by intro op hop; simp at hop)⟩

/-- Reachable-state invariant for the round-trip proof: user ids and password
credential owner ids come from the freshness counter, so they lie below it. -/
def WellFormedIds (s : State) : Prop :=
  (∀ u ∈ s.users, u.id < s.counter) ∧ (∀ c ∈ s.passwordCreds, c.userId < s.counter)

/-- The user row inserted by a fresh registration (proof abbreviation). -/
def freshUser (s : State) (email : String) (dn : Option String) (now : Nat) : User :=
  User.mk s.counter (strLower email) dn true false now now

/-- The password credential row inserted by a fresh registration. -/
def freshCred (s : State) (password : String) (now : Nat) : PasswordCred :=
  PasswordCred.mk (s.counter + 1) s.counter (argonHash password) now now

/-- The state after `create_user` on a fresh email with a nonempty password. -/
def stateAfterCreate (s : State) (email password : String) (dn : Option String)
    (now : Nat) : State :=
  { users := s.users ++ [freshUser s email dn now]
    passwordCreds := s.passwordCreds ++ [freshCred s password now]
    passkeyCreds := s.passkeyCreds
    refreshTokens := s.refreshTokens
    challenges := s.challenges
    counter := s.counter + 2 }

theorem create_user_fresh (s : State) (email password : String)
    (dn : Option String) (now : Nat) (hpw : password ≠ "")
    (h1 : s.passwordCreds.find? (fun c => decide (c.userId = s.counter)) = none)
    (h2 : s.users.find? (fun u => decide (u.id = s.counter)) = none) :
    create_user s email (some password) dn now =
      (some (freshUser s email dn now), stateAfterCreate s email password dn now) := by
  unfold create_user set_password
  dsimp only
  rw [if_pos hpw, h1]
  dsimp only
  unfold get_user_by_id
  dsimp only
  rw [findP_append_none _ _ _ h2]
  unfold freshUser stateAfterCreate freshCred
  simp [List.find?]
  rfl

/-- The access token issued to the fresh user (identical at register and at
login time: access claims carry no `jti`). -/
def freshAccessToken (s : State) (email : String) (now : Nat) : Jwt :=
  jwtEncode (JwtPayload.mk s.counter (some (strLower email)) "access"
    (now + settings.jwt_access_token_expire_minutes * 60) now none)
    settings.jwt_secret_key

/-- The refresh token issued by the register handler for the fresh user. -/
def registerRefreshToken (s : State) (now : Nat) : Jwt :=
  jwtEncode (JwtPayload.mk s.counter none "refresh"
    (now + settings.jwt_refresh_token_expire_days * 86400) now (some (s.counter + 2)))
    settings.jwt_secret_key

/-- The state after the register handler on a fresh email. -/
def stateAfterRegister (s : State) (email password : String) (dn : Option String)
    (now : Nat) : State :=
  { users := s.users ++ [freshUser s email dn now]
    passwordCreds := s.passwordCreds ++ [freshCred s password now]
    passkeyCreds := s.passkeyCreds
    refreshTokens := s.refreshTokens ++
      [RefreshRow.mk (s.counter + 3) s.counter (registerRefreshToken s now)
        (now + settings.jwt_refresh_token_expire_days * 86400) false now]
    challenges := s.challenges
    counter := s.counter + 4 }

/-- The refresh token issued by the subsequent login. -/
def loginRefreshToken (s : State) (now : Nat) : Jwt :=
  jwtEncode (JwtPayload.mk s.counter none "refresh"
    (now + settings.jwt_refresh_token_expire_days * 86400) now (some (s.counter + 4)))
    settings.jwt_secret_key

/-- The state after register followed by password login. -/
def stateAfterLogin (s : State) (email password : String) (dn : Option String)
    (now : Nat) : State :=
  { stateAfterRegister s email password dn now with
      refreshTokens := (stateAfterRegister s email password dn now).refreshTokens ++
        [RefreshRow.mk (s.counter + 5) s.counter (loginRefreshToken s now)
          (now + settings.jwt_refresh_token_expire_days * 86400) false now]
      counter := s.counter + 6 }

/-- C6 (amended): registering a fresh email with a nonempty password and then
logging in with the same email and password yields a token pair whose access
token verifies to claims whose subject is the id of the user created by
registration. (`s` is reachable: ids come from the freshness counter.) -/
theorem register_login_roundtrip (s : State) (email password : String)
    (dn : Option String) (now : Nat)
    (hwf : WellFormedIds s)
    (hfresh : get_user_by_email s email = none)
    (hpw : password ≠ "") :
    ∃ u tr payload,
      register s email password dn now =
        (HResult.ok (TokenResponse.mk (freshAccessToken s email now)
          (registerRefreshToken s now) "bearer"
          (settings.jwt_access_token_expire_minutes * 60)),
         stateAfterRegister s email password dn now) ∧
      get_user_by_email (register s email password dn now).2 email = some u ∧
      (login_password (register s email password dn now).2 email password now).1 =
        HResult.ok tr ∧
      verify_access_token
        (login_password (register s email password dn now).2 email password now).2
        tr.access_token now = some payload ∧
      payload.sub = u.id := by
  have h1 : s.passwordCreds.find? (fun c => decide (c.userId = s.counter)) = none := by
    apply findP_none_of_all
    intro c hc
    simp only [decide_eq_false_iff_not]
    exact Nat.ne_of_lt (hwf.2 c hc)
  have h2 : s.users.find? (fun u => decide (u.id = s.counter)) = none := by
    apply findP_none_of_all
    intro u hu
    simp only [decide_eq_false_iff_not]
    exact Nat.ne_of_lt (hwf.1 u hu)
  have h3 : s.users.find? (fun u => decide (u.email = strLower email)) = none := hfresh
  have hcu := create_user_fresh s email password dn now hpw h1 h2
  have hreg : register s email password dn now =
      (HResult.ok (TokenResponse.mk (freshAccessToken s email now)
        (registerRefreshToken s now) "bearer"
        (settings.jwt_access_token_expire_minutes * 60)),
       stateAfterRegister s email password dn now) := by
    unfold register
    rw [hfresh]
    dsimp only
    rw [hcu]
    dsimp only
    unfold create_tokens freshAccessToken registerRefreshToken stateAfterRegister
      stateAfterCreate freshUser jwtEncode
    rfl
  have hu3 : get_user_by_email (stateAfterRegister s email password dn now) email =
      some (freshUser s email dn now) := by
    unfold get_user_by_email stateAfterRegister
    dsimp only
    rw [findP_append_none _ _ _ h3]
    unfold freshUser
    simp [List.find?]
  have hvp : verify_password (stateAfterRegister s email password dn now)
      s.counter password now = (true, stateAfterRegister s email password dn now) := by
    unfold verify_password stateAfterRegister
    dsimp only
    rw [findP_append_none _ _ _ h1]
    unfold freshCred
    simp [List.find?, argonVerify, argonNeedsRehash, argonHash]
  have hlogin : login_password (stateAfterRegister s email password dn now)
      email password now =
      (HResult.ok (TokenResponse.mk (freshAccessToken s email now)
        (loginRefreshToken s now) "bearer"
        (settings.jwt_access_token_expire_minutes * 60)),
       stateAfterLogin s email password dn now) := by
    unfold login_password
    rw [hu3]
    dsimp only
    rw [if_neg (by simp [freshUser])]
    rw [show (freshUser s email dn now).id = s.counter from rfl, hvp]
    dsimp only
    rw [if_neg (by simp)]
    rfl
  have hexp : now < now + settings.jwt_access_token_expire_minutes * 60 := by
    have h15 : settings.jwt_access_token_expire_minutes = 15 := rfl
    omega
  have hver : verify_access_token (stateAfterLogin s email password dn now)
      (freshAccessToken s email now) now =
      some (JwtPayload.mk s.counter (some (strLower email)) "access"
        (now + settings.jwt_access_token_expire_minutes * 60) now none) := by
    unfold verify_access_token freshAccessToken jwtDecode jwtEncode
    dsimp only
    rw [if_pos ⟨rfl, hexp⟩]
    rfl
  refine ⟨freshUser s email dn now,
    TokenResponse.mk (freshAccessToken s email now) (loginRefreshToken s now)
      "bearer" (settings.jwt_access_token_expire_minutes * 60),
    JwtPayload.mk s.counter (some (strLower email)) "access"
      (now + settings.jwt_access_token_expire_minutes * 60) now none,
    hreg, ?_, ?_, ?_, rfl⟩
  · rw [hreg]
    exact hu3
  · rw [hreg, hlogin]
  · rw [hreg, hlogin]
    exact hver

/-- Empty initial state for the C6 witness and counterexample. -/
def stateC6 : State := ⟨[], [], [], [], [], 0⟩

/-- C6 witness: the round trip at a concrete fresh email and password. -/
theorem register_login_roundtrip_witness :
    ∃ u tr payload,
      register stateC6 "alice@example.com" "secret123" none 0 =
        (HResult.ok (TokenResponse.mk (freshAccessToken stateC6 "alice@example.com" 0)
          (registerRefreshToken stateC6 0) "bearer"
          (settings.jwt_access_token_expire_minutes * 60)),
         stateAfterRegister stateC6 "alice@example.com" "secret123" none 0) ∧
      get_user_by_email (register stateC6 "alice@example.com" "secret123" none 0).2
        "alice@example.com" = some u ∧
      (login_password (register stateC6 "alice@example.com" "secret123" none 0).2
        "alice@example.com" "secret123" 0).1 = HResult.ok tr ∧
      verify_access_token
        (login_password (register stateC6 "alice@example.com" "secret123" none 0).2
          "alice@example.com" "secret123" 0).2 tr.access_token 0 = some payload ∧
      payload.sub = u.id :=
  register_login_roundtrip stateC6 "alice@example.com" "secret123" none 0
    ⟨fun u hu => by simp [stateC6] at hu, fun c hc => by simp [stateC6] at hc⟩
    (by decide) (by decide)

/-- C6 counterexample: with the empty password, registration succeeds — the
Python truthiness check `if password:` in `create_user` silently skips
`set_password` — but logging in with the same email and the same (empty)
password is rejected with 401, so the round trip fails for that password. -/
theorem register_login_empty_password_cex :
    ((register stateC6 "alice@example.com" "" none 0).1.isOk = true) ∧
    ((login_password (register stateC6 "alice@example.com" "" none 0).2
        "alice@example.com" "" 0).1 =
      HResult.httpError 401 "Invalid email or password") := by
  decide
